import Mathlib

/-!
Verification of the notex backend (Go) against its natural-language design
specification.  Go strings are embedded as lists of characters (`Str`), Go
errors as the inductive `GoError` (whose `wrap` constructor models
`fmt.Errorf("...: %w", err)`), and fallible external calls (HTTP requests,
the GenAI SDK, the file system, subprocesses) as explicit outcome
parameters.  Every definition is translated from the repository's source,
except the two vector-store primitives whose implementation file is not part
of the snapshot; those are modelled from the spec and marked as such.
-/

/-- Go strings, embedded at character granularity.  Go indexes by byte; every
string literal the code slices around is ASCII, so offsets correspond
structurally. -/
abbrev Str := List Char

/-- Embeds a Lean string literal as a Go string value. -/
def gs (s : String) : Str := s.data

/-- Go `fmt.Sprintf("%d", n)` / decimal rendering of a natural number. -/
def natStr (n : Nat) : Str := (Nat.repr n).data

/-- Go `error` values: either a leaf message (`errors.New` / `fmt.Errorf`
without `%w`) or a wrapping error (`fmt.Errorf("msg: %w", cause)`); extra
formatted context of the message is folded into `msg`. -/
inductive GoError where
  | mk (msg : Str)
  | wrap (msg : Str) (cause : GoError)
deriving DecidableEq

deriving instance DecidableEq for Except

/-- Go `strings.Contains(s, sub)`. -/
def goContains : Str → Str → Bool
  | _, [] => true
  | [], _ :: _ => false
  | c :: rest, d :: sub => (d :: sub).isPrefixOf (c :: rest) || goContains rest (d :: sub)

/-- Worker for `goSplit`: scans `s` left to right, cutting at each
non-overlapping occurrence of `sep`; `acc` holds the current part reversed.
The fuel argument only serves structural recursion: every step consumes at
least one character, so fuel `s.length + 1` never runs out. -/
def splitGoAux (sep : Str) : Nat → Str → Str → List Str
  | _, acc, [] => [acc.reverse]
  | 0, acc, rest => [acc.reverse ++ rest]
  | fuel + 1, acc, c :: rest =>
    if sep.isPrefixOf (c :: rest) ∧ 0 < sep.length then
      acc.reverse :: splitGoAux sep fuel [] (List.drop (sep.length - 1) rest)
    else
      splitGoAux sep fuel (c :: acc) rest

/-- Go `strings.Split(s, sep)` for a non-empty separator (the only way the
repository calls it; Go's empty-separator rune splitting is not modelled). -/
def goSplit (sep s : Str) : List Str := splitGoAux sep (s.length + 1) [] s

/-- Go `strings.Index(s, sub)`: char offset of the first occurrence, `-1` if
absent. -/
def goIndex (sub : Str) : Str → Int
  | [] => if sub = [] then 0 else -1
  | c :: rest =>
    if sub.isPrefixOf (c :: rest) then 0
    else
      let r := goIndex sub rest
      if r = -1 then -1 else r + 1

/-- Go slice expression `s[lo:hi]`. -/
def goSlice (s : Str) (lo hi : Nat) : Str := (s.drop lo).take (hi - lo)

/-- Go `strings.ToLower` (ASCII case folding; the marker literals the code
lowercases against contain no non-ASCII cased letters). -/
def goToLower (s : Str) : Str := s.map Char.toLower

/-- Go `filepath.Base` for slash-separated paths (volume names aside): strip
trailing slashes, then keep the last component. -/
def filepathBase (p : Str) : Str :=
  if p = [] then gs "."
  else
    let trimmed := (p.reverse.dropWhile (· = '/')).reverse
    if trimmed = [] then gs "/"
    else (trimmed.reverse.takeWhile (· ≠ '/')).reverse

/-- A source row as read by the core (`Source` model): the fields
`GenerateTransformation` and the vector-index loader consume (`SType` embeds
the Go field `Type`, a reserved word in Lean). -/
structure Source where
  ID : Str
  Name : Str
  SType : Str
  Content : Str
deriving DecidableEq

/-- One chunk of the vector index, tagged with the notebook it was ingested
for and the name of its originating source (spec §3 `Chunk`; the embedding
vector itself plays no role in the claims and is elided). -/
structure Chunk where
  notebookID : Str
  sourceName : Str
  text : Str
deriving DecidableEq

/-- A chat turn (`ChatMessage` model). -/
structure ChatMessage where
  Role : Str
  Content : Str
deriving DecidableEq

/-- `SourceSummary` as built by `Agent.Chat` and `GenerateTransformation`. -/
structure SourceSummary where
  ID : Str
  Name : Str
  SType : Str
deriving DecidableEq

/-- The parts of `ChatResponse` the claims inspect. -/
structure ChatResponse where
  Message : Str
  Sources : List SourceSummary
  SessionID : Str
  docsRetrieved : Nat
deriving DecidableEq

/-- A parsed PPT slide (`Slide` in agent.go). -/
structure Slide where
  Style : Str
  Content : Str
deriving DecidableEq

/-- Source-context assembly loop of `Agent.GenerateTransformation`
(src/backend/agent.go lines 66-88), with the running loop index `i` made
explicit.  For each source it emits a numbered header, then the content —
whole if within the limit, else the first `limit` characters plus a
truncation marker quoting the original length — or a name/type placeholder
for empty content, then a newline. -/
def buildSourceContextFrom (maxContextLength : Int) (i : Nat) : List Source → Str
  | [] => []
  | src :: rest =>
    let limit : Nat := if maxContextLength ≤ 0 then 100000 else maxContextLength.toNat
    (gs "\n## Source " ++ natStr (i + 1) ++ gs ": " ++ src.Name ++ gs "\n")
      ++ (if src.Content ≠ [] then
            if src.Content.length ≤ limit then src.Content
            else src.Content.take limit
              ++ gs "\n... [Content truncated, total length: "
              ++ natStr src.Content.length ++ gs "]"
          else gs "[Source content: " ++ src.Name ++ gs ", type: " ++ src.SType ++ gs "]")
      ++ gs "\n"
      ++ buildSourceContextFrom maxContextLength (i + 1) rest

/-- `sourceContext` as assembled by `Agent.GenerateTransformation` over all
candidate sources (loop index starts at 0). -/
def buildSourceContext (maxContextLength : Int) (sources : List Source) : Str :=
  buildSourceContextFrom maxContextLength 0 sources

/-- History loop of `Agent.Chat` (src/backend/agent.go lines 185-195): walks
the history in order, stopping (`break`) once the index reaches 10; each
message is rendered as a role label, a colon, the content, and a newline. -/
def buildHistoryChat : Nat → List ChatMessage → Str
  | _, [] => []
  | i, msg :: rest =>
    if i ≥ 10 then []
    else
      ((if msg.Role = gs "assistant" then gs "助手" else gs "用户")
          ++ gs ": " ++ msg.Content ++ gs "\n")
        ++ buildHistoryChat (i + 1) rest

/-- The history block `Agent.Chat` substitutes into the chat prompt. -/
def buildHistoryBlock (history : List ChatMessage) : Str := buildHistoryChat 0 history

/-- Rendering of a single history turn, factored out for stating properties:
role label, colon, content, newline (matches the loop body of `Agent.Chat`). -/
def renderChatMsg (msg : ChatMessage) : Str :=
  (if msg.Role = gs "assistant" then gs "助手" else gs "用户")
    ++ gs ": " ++ msg.Content ++ gs "\n"

/-- The history block the spec describes ("at most the last 10 turns,
role-labeled"): the final 10 messages of the history, rendered in order. -/
def lastTenHistoryBlock (history : List ChatMessage) : Str :=
  ((history.drop (history.length - 10)).map renderChatMsg).flatten

/-- Modelled from the spec: `VectorStore.IngestText(ctx, notebookID, sourceName,
text)` — the vector-store implementation file is not part of the snapshot.
Per spec §4.1 the text is split into chunks (by an unspecified chunker,
abstracted as a parameter) and each chunk is inserted tagged with the
notebook ID and source name; the chunk count is returned. -/
def IngestText (chunker : Str → List Str) (notebookID sourceName text : Str)
    (store : List Chunk) : Nat × List Chunk :=
  ((chunker text).length,
    store ++ (chunker text).map (fun t => ⟨notebookID, sourceName, t⟩))

/-- Insertion of a chunk into a list kept in non-increasing score order. -/
def insertByScoreDesc (score : Chunk → Int) (c : Chunk) : List Chunk → List Chunk
  | [] => [c]
  | d :: rest =>
    if score d < score c then c :: d :: rest else d :: insertByScoreDesc score c rest

/-- Chunks sorted by non-increasing score. -/
def sortByScoreDesc (score : Chunk → Int) (store : List Chunk) : List Chunk :=
  store.foldr (insertByScoreDesc score) []

/-- Modelled from the spec: `VectorStore.SimilaritySearch(ctx, query, k)` — the
implementation file is not part of the snapshot.  Per spec §4.1 it returns at
most `k` results ordered by descending similarity score (scoring abstracted
as a parameter); crucially, as called from `Agent.Chat`
(src/backend/agent.go line 167) it receives no notebook ID, so it ranks over
every chunk the shared index holds. -/
def SimilaritySearch (score : Str → Chunk → Int) (store : List Chunk)
    (query : Str) (k : Nat) : List Chunk :=
  (sortByScoreDesc (score query) store).take k

/-- Context-block loop of `Agent.Chat` (src/backend/agent.go lines 172-182):
lists each retrieved chunk's text and its originating source name.  The
`doc.Metadata["source"]` type assertion always succeeds in the model, since
every ingested chunk carries its source name. -/
def chatContextDoc (i : Nat) (doc : Chunk) : Str :=
  (gs "[来源 " ++ natStr (i + 1) ++ gs "] " ++ doc.text ++ gs "\n")
    ++ (gs "来源: " ++ doc.sourceName ++ gs "\n\n")

/-- Indexed walk over the retrieved documents for the context block. -/
def chatContextDocsFrom (i : Nat) : List Chunk → Str
  | [] => []
  | doc :: rest => chatContextDoc i doc ++ chatContextDocsFrom (i + 1) rest

/-- The retrieval context block `Agent.Chat` substitutes into the prompt. -/
def chatContextBlock (docs : List Chunk) : Str :=
  if docs.length > 0 then gs "来源中的相关信息：\n\n" ++ chatContextDocsFrom 0 docs
  else []

/-- Source-summary deduplication loop of `Agent.Chat` (src/backend/agent.go
lines 222-236): one `SourceSummary` per distinct source name of the
retrieved chunks, in first-seen order, with ID and Name both the source name
and type `"file"`. -/
def chatSourceSummariesAux (seen : List Str) : List Chunk → List SourceSummary
  | [] => []
  | doc :: rest =>
    if seen.contains doc.sourceName then chatSourceSummariesAux seen rest
    else ⟨doc.sourceName, doc.sourceName, gs "file"⟩
      :: chatSourceSummariesAux (doc.sourceName :: seen) rest

/-- The de-duplicated source summaries returned by `Agent.Chat`. -/
def chatSourceSummaries (docs : List Chunk) : List SourceSummary :=
  chatSourceSummariesAux [] docs

/-- `Agent.Chat` (src/backend/agent.go lines 165-246): similarity search with
bound `maxSources` (`a.cfg.MaxSources`) — note the notebook ID is not passed
to the search — then context block, truncated history block, prompt
formatting (the template text lives outside the snapshot; the generated
answer is the `llmAnswer` parameter), and the response carrying the answer
plus de-duplicated source summaries. -/
def Agent_Chat (score : Str → Chunk → Int) (store : List Chunk) (maxSources : Nat)
    (notebookID message : Str) (history : List ChatMessage) (llmAnswer : Str) :
    ChatResponse :=
  let docs := SimilaritySearch score store message maxSources
  let _context := chatContextBlock docs
  let _history := buildHistoryBlock history
  { Message := llmAnswer
    Sources := chatSourceSummaries docs
    SessionID := notebookID
    docsRetrieved := docs.length }

/-- The docs `Agent.Chat` retrieves and builds its prompt context from. -/
def Agent_Chat_docs (score : Str → Chunk → Int) (store : List Chunk)
    (maxSources : Nat) (message : Str) : List Chunk :=
  SimilaritySearch score store message maxSources

/-- Server-side vector-index state: the process-wide `loadedNotebooks` set and
the shared vector store (src/unnamed/part_001 lines 201-203). -/
structure SrvState where
  loadedNotebooks : List Str
  chunks : List Chunk
deriving DecidableEq

/-- Instrumentation for one invocation of the loader: whether it listed the
notebook's sources and which sources it ingested (by name, in order). -/
structure LoadTrace where
  listedSources : Bool
  ingestedSources : List Str
deriving DecidableEq

/-- `Server.loadNotebookVectorIndex` (src/unnamed/part_001 lines 366-396),
sequentialised: the mutex serialises invocations, so one call is modelled as
an atomic state transformation.  If the notebook is already marked loaded it
returns at once; otherwise it lists the sources (outcome `listSources`),
ingests every source with non-empty content (a failed ingest is logged and
skipped — ingestion itself is modelled as succeeding, spec §4.1), and marks
the notebook loaded. -/
def Server_loadNotebookVectorIndex (chunker : Str → List Str)
    (listSources : Except GoError (List Source)) (st : SrvState) (notebookID : Str) :
    SrvState × LoadTrace × Except GoError Unit :=
  if st.loadedNotebooks.contains notebookID then
    (st, ⟨false, []⟩, .ok ())
  else
    match listSources with
    | .error e => (st, ⟨true, []⟩, .error (.wrap (gs "failed to list sources") e))
    | .ok sources =>
      let loop := sources.foldl
        (fun acc src =>
          if src.Content ≠ [] then
            ((IngestText chunker notebookID src.Name src.Content acc.1).2,
              acc.2 ++ [src.Name])
          else acc)
        (st.chunks, ([] : List Str))
      (⟨notebookID :: st.loadedNotebooks, loop.1⟩, ⟨true, loop.2⟩, .ok ())

/-- Iterated invocations of the loader with the same backing store. -/
def loadIter (chunker : Str → List Str) (listSources : Except GoError (List Source))
    (notebookID : Str) : Nat → SrvState → SrvState
  | 0, st => st
  | k + 1, st =>
    loadIter chunker listSources notebookID k
      (Server_loadNotebookVectorIndex chunker listSources st notebookID).1

/-- Regions of the step-2 heading scan of `Agent.ParsePPTSlides`: each match
start opens a region running to the next match start (or the end of the
text). -/
def slideRegions (content : Str) : List (Nat × Nat) → List Str
  | [] => []
  | [p] => [goSlice content p.1 content.length]
  | p :: q :: rest => goSlice content p.1 q.1 :: slideRegions content (q :: rest)

/-- Validation test of a step-2 candidate region (src/backend/agent.go lines
281-284): it must contain at least one required section-marker keyword. -/
def slideRegionValid (region : Str) : Bool :=
  let lower := goToLower region
  goContains lower (gs "叙事目标") || goContains lower (gs "narrative goal")
    || goContains lower (gs "关键内容")

/-- Final fallback of `Agent.ParsePPTSlides` (src/backend/agent.go lines
312-315): completely unstructured content becomes a single slide. -/
def orSingleSlide (style content : Str) (slides : List Slide) : List Slide :=
  if slides = [] then [⟨style, content⟩] else slides

/-- `Agent.ParsePPTSlides` (src/backend/agent.go lines 255-318).  The heading
regex `(?m)^(?:\s*#\x7b1,6\x7d\s*)?(?:Slide|幻灯片|第\d+张幻灯片|##)\s*\d+[:\s]*.*$` is
evaluated by Go's regexp engine outside the model; `findAllIndex` abstracts
`re.FindAllStringIndex(content, -1)` (match start/end offset pairs, of which
the code only uses the starts).  Step 1 extracts the optional style block;
step 2 turns validated heading regions into slides; step 3 falls back to
splitting on a narrative-goal marker (localized variant first); step 4 treats
the whole input as a single slide. -/
def Agent_ParsePPTSlides (findAllIndex : Str → List (Nat × Nat)) (content : Str) :
    List Slide :=
  let styleStart := goIndex (gs "<STYLE_INSTRUCTIONS>") content
  let styleEnd := goIndex (gs "</STYLE_INSTRUCTIONS>") content
  let style :=
    if styleStart ≠ -1 ∧ styleEnd > styleStart then
      goSlice content (styleStart.toNat + 20) styleEnd.toNat
    else []
  let indices := findAllIndex content
  let slides₁ :=
    (slideRegions content indices).filterMap
      (fun region =>
        if slideRegionValid region then some (⟨style, region⟩ : Slide) else none)
  let slides₂ :=
    if slides₁ = [] then
      let marker :=
        if goContains content (gs "// 叙事目标") then gs "// 叙事目标"
        else gs "// NARRATIVE GOAL"
      if goContains content marker then
        ((goSplit marker content).drop 1).map (fun part => (⟨style, marker ++ part⟩ : Slide))
      else []
    else slides₁
  orSingleSlide style content slides₂

/-- Image bytes (opaque payload). -/
abbrev Bytes := List Nat

/-- One part of a GenAI candidate content (`genai.Part`): only the
`InlineData` payload matters to `GenerateImage`. -/
structure GenPart where
  inlineData : Option Bytes
deriving DecidableEq

/-- GenAI candidate content (`genai.Content`). -/
structure GenContent where
  parts : List GenPart
deriving DecidableEq

/-- GenAI candidate (`genai.Candidate`); `content = none` embeds a nil
`Content` pointer. -/
structure GenCandidate where
  content : Option GenContent
deriving DecidableEq

/-- GenAI `GenerateContent` response. -/
structure GenResp where
  candidates : List GenCandidate
deriving DecidableEq

/-- Observable timing events of `GeminiClient.GenerateImage`: the backoff
sleeps and the upstream calls, each tagged with the attempt index and the
per-attempt context timeout in seconds. -/
inductive GenEv where
  | sleepSecs (n : Nat)
  | upstreamCall (idx : Nat) (timeoutSecs : Nat)
deriving DecidableEq

/-- File-system outcomes for the save step of `GeminiClient.GenerateImage`
(`os.MkdirAll`, `os.WriteFile`). -/
structure FsOutcome where
  mkdirErr : Option GoError
  writeErr : Option GoError
deriving DecidableEq

/-- Extraction of the image payload from a candidate's parts
(src/backend/gemini.go lines 93-99): the first part carrying inline data, or
an empty payload when none does. -/
def extractImageData (parts : List GenPart) : Bytes :=
  match parts.find? (fun p => p.inlineData.isSome) with
  | some p => p.inlineData.getD []
  | none => []

/-- Retry loop of `GeminiClient.GenerateImage` (src/backend/gemini.go lines
68-128).  `fuel` counts the attempts still allowed (`3 - attempt + 1`), `idx`
the 1-based attempt index; `call idx` is the outcome of the upstream
`GenerateContent` call on attempt `idx`.  Attempts after the first are
preceded by a 2-second sleep; each attempt runs under its own 300-second
context.  A transport error, an empty/nil candidate list, or an empty
payload records the error and continues; a payload is saved as
`./data/uploads/infograph_<UnixNano>.png` (file-system failures abort
without further attempts); fuel exhaustion wraps the last error. -/
def geminiAttemptLoop (call : Nat → Except GoError GenResp) (fs : FsOutcome)
    (nowNano : Nat) : Nat → Nat → GoError → Except GoError Str × List GenEv
  | 0, _, lastErr =>
    (.error (.wrap (gs "failed to generate image after 3 attempts") lastErr), [])
  | fuel + 1, idx, _lastErr =>
    let pre : List GenEv := if idx > 1 then [.sleepSecs 2] else []
    let evHere := pre ++ [GenEv.upstreamCall idx 300]
    match call idx with
    | .error e =>
      let next := geminiAttemptLoop call fs nowNano fuel (idx + 1) e
      (next.1, evHere ++ next.2)
    | .ok resp =>
      match resp.candidates with
      | [] =>
        let next := geminiAttemptLoop call fs nowNano fuel (idx + 1)
          (.mk (gs "no candidates generated"))
        (next.1, evHere ++ next.2)
      | c0 :: _ =>
        if c0.content = none then
          let next := geminiAttemptLoop call fs nowNano fuel (idx + 1)
            (.mk (gs "no candidates generated"))
          (next.1, evHere ++ next.2)
        else
          let imageData := extractImageData (c0.content.getD ⟨[]⟩).parts
          if imageData = [] then
            let next := geminiAttemptLoop call fs nowNano fuel (idx + 1)
              (.mk (gs "no image data in response"))
            (next.1, evHere ++ next.2)
          else
            match fs.mkdirErr with
            | some e => (.error (.wrap (gs "failed to create upload directory") e), evHere)
            | none =>
              match fs.writeErr with
              | some e => (.error (.wrap (gs "failed to save image") e), evHere)
              | none =>
                (.ok (gs "./data/uploads/infograph_" ++ natStr nowNano ++ gs ".png"),
                  evHere)

/-- `GeminiClient.GenerateImage` (src/backend/gemini.go lines 44-129): fails
fast without a credential, creates the GenAI client (`clientErr` its
outcome), then runs up to 3 attempts.  Note it receives no user identity:
the save path is always the shared uploads directory. -/
def GeminiClient_GenerateImage (googleAPIKey : Str) (clientErr : Option GoError)
    (call : Nat → Except GoError GenResp) (fs : FsOutcome) (nowNano : Nat) :
    Except GoError Str × List GenEv :=
  if googleAPIKey = [] then (.error (.mk (gs "google_api_key is not set")), [])
  else
    match clientErr with
    | some e => (.error (.wrap (gs "failed to create genai client") e), [])
    | none => geminiAttemptLoop call fs nowNano 3 1 (.mk [])

/-- The event trace of `n` consecutive upstream attempts starting at attempt
index `idx`: each attempt after the first is immediately preceded by the
fixed 2-second backoff sleep, and each runs under its own 300-second
timeout. -/
def attemptsFrom (idx : Nat) : Nat → List GenEv
  | 0 => []
  | n + 1 =>
    (if idx > 1 then [GenEv.sleepSecs 2] else [])
      ++ [GenEv.upstreamCall idx 300] ++ attemptsFrom (idx + 1) n

/-- Whether an upstream outcome makes `GeminiClient.GenerateImage` move to
the next attempt: transport failure, empty/nil candidate list, or missing
image payload (the branch conditions of src/backend/gemini.go lines
79-106). -/
def retriesOn (o : Except GoError GenResp) : Bool :=
  match o with
  | .error _ => true
  | .ok resp =>
    match resp.candidates with
    | [] => true
    | c0 :: _ =>
      c0.content = none || extractImageData (c0.content.getD ⟨[]⟩).parts = []

/-- The error the retry loop records for an upstream outcome it retries on. -/
def recordedErr (o : Except GoError GenResp) : GoError :=
  match o with
  | .error e => e
  | .ok resp =>
    match resp.candidates with
    | [] => .mk (gs "no candidates generated")
    | c0 :: _ =>
      if c0.content = none then .mk (gs "no candidates generated")
      else .mk (gs "no image data in response")

/-- One entry of the GLM image response's `data` array. -/
structure GLMUrl where
  URL : Str
deriving DecidableEq

/-- The `error` object of a GLM image response. -/
structure GLMErr where
  Message : Str
  EType : Str
  Param : Str
  Code : Str
deriving DecidableEq

/-- GLM image-generation response body (the decoded fields the code reads). -/
structure GLMResp where
  data : List GLMUrl
  error : GLMErr
deriving DecidableEq

/-- Outcome of the image download: HTTP status and body bytes (`io.ReadAll`
errors are folded into the transport error of the surrounding `Except`). -/
structure DownloadRes where
  status : Nat
  body : Bytes
deriving DecidableEq

/-- `GLMImageClient.generateToken` (src/unnamed/part_000 lines 179-203): the
credential must split on `.` into exactly an id and a secret; the HS256
signing itself is opaque and abstracted by `signedTok`. -/
def GLMImageClient_generateToken (apiKey : Str) (signedTok : Str) :
    Except GoError Str :=
  if (goSplit (gs ".") apiKey).length ≠ 2 then
    .error (.mk (gs "invalid API key format, expected id.secret"))
  else .ok signedTok

/-- `GLMImageClient.GenerateImage` (src/unnamed/part_000 lines 43-165):
credential check, JWT derivation, upstream POST (`httpOutcome` covers
transport and JSON decoding), explicit API error code check, image-URL
presence check, download (body read before the status check, as in the
code), then save under `./data/uploads/<userID>` when a user identity is
supplied and `./data/uploads` otherwise, with an `infograph_<UnixNano>.png`
filename. -/
def GLMImageClient_GenerateImage (apiKey : Str) (signedTok : Str)
    (httpOutcome : Except GoError GLMResp) (download : Except GoError DownloadRes)
    (fs : FsOutcome) (nowNano : Nat) (userID : Str) : Except GoError Str :=
  if apiKey = [] then .error (.mk (gs "glm_api_key is not set"))
  else
    match GLMImageClient_generateToken apiKey signedTok with
    | .error e => .error (.wrap (gs "failed to generate token") e)
    | .ok _token =>
      match httpOutcome with
      | .error e => .error (.wrap (gs "failed to send request") e)
      | .ok result =>
        if result.error.Code ≠ [] then
          .error (.mk (gs "GLM API error (" ++ result.error.Code ++ gs "): "
            ++ result.error.Message))
        else if result.data = [] ∨ (result.data.headD ⟨[]⟩).URL = [] then
          .error (.mk (gs "no image URL in response"))
        else
          match download with
          | .error e => .error (.wrap (gs "failed to download image") e)
          | .ok dl =>
            if dl.status ≠ 200 then
              .error (.mk (gs "failed to download image, status: " ++ natStr dl.status))
            else
              let uploadDir :=
                if userID ≠ [] then gs "./data/uploads/" ++ userID
                else gs "./data/uploads"
              match fs.mkdirErr with
              | some e => .error (.wrap (gs "failed to create upload directory") e)
              | none =>
                match fs.writeErr with
                | some e => .error (.wrap (gs "failed to save image") e)
                | none =>
                  .ok (uploadDir ++ gs "/" ++ gs "infograph_" ++ natStr nowNano
                    ++ gs ".png")

/-- One entry of the Z-Image response's `output.results` array. -/
structure ZUrl where
  URL : Str
deriving DecidableEq

/-- Z-Image generation response body (the decoded fields the code reads). -/
structure ZResp where
  results : List ZUrl
  Code : Str
  Message : Str
deriving DecidableEq

/-- `ZImageClient.GenerateImage` (src/unnamed/part_001 lines 42-159): raw
bearer-token auth (no JWT step), upstream POST, API error check (`code` set
and not `"200"`), image-URL presence check, download, then the same
per-user-scoped save as the GLM client. -/
def ZImageClient_GenerateImage (apiKey : Str)
    (httpOutcome : Except GoError ZResp) (download : Except GoError DownloadRes)
    (fs : FsOutcome) (nowNano : Nat) (userID : Str) : Except GoError Str :=
  if apiKey = [] then .error (.mk (gs "zimage_api_key is not set"))
  else
    match httpOutcome with
    | .error e => .error (.wrap (gs "failed to send request") e)
    | .ok result =>
      if result.Code ≠ [] ∧ result.Code ≠ gs "200" then
        .error (.mk (gs "Z-Image API error (" ++ result.Code ++ gs "): "
          ++ result.Message))
      else if result.results = [] ∨ (result.results.headD ⟨[]⟩).URL = [] then
        .error (.mk (gs "no image URL in response"))
      else
        match download with
        | .error e => .error (.wrap (gs "failed to download image") e)
        | .ok dl =>
          if dl.status ≠ 200 then
            .error (.mk (gs "failed to download image, status: " ++ natStr dl.status))
          else
            let uploadDir :=
              if userID ≠ [] then gs "./data/uploads/" ++ userID
              else gs "./data/uploads"
            match fs.mkdirErr with
            | some e => .error (.wrap (gs "failed to create upload directory") e)
            | none =>
              match fs.writeErr with
              | some e => .error (.wrap (gs "failed to save image") e)
              | none =>
                .ok (uploadDir ++ gs "/" ++ gs "infograph_" ++ natStr nowNano
                  ++ gs ".png")

/-- Per-slide prompt built by the ppt branch of `Server.handleTransform`
(src/unnamed/part_001 lines 1007-1008): the first slide's style plus the
slide's own content plus the fixed language instruction. -/
def pptSlidePrompt (style0 : Str) (slide : Slide) : Str :=
  gs "Style: " ++ style0 ++ gs "\n\nSlide Content: " ++ slide.Content
    ++ gs "\n\n**注意：无论来源是什么语言，请务必使用中文**\n"

/-- Per-slide image loop of the ppt branch (src/unnamed/part_001 lines
1004-1016): slides are processed sequentially; `gen i` is the provider
outcome for the `i`-th slide's call.  Returns the collected web URLs of the
successful slides (a failed slide is logged and skipped via `continue`) and
the prompts actually sent, in order. -/
def pptSlideLoop (gen : Nat → Except GoError Str) (style0 : Str) (i : Nat) :
    List Slide → List Str × List Str
  | [] => ([], [])
  | slide :: rest =>
    let prompt := pptSlidePrompt style0 slide
    let next := pptSlideLoop gen style0 (i + 1) rest
    match gen i with
    | .error _ => (next.1, prompt :: next.2)
    | .ok imagePath =>
      ((gs "/api/files/" ++ filepathBase imagePath) :: next.1, prompt :: next.2)

/-- Metadata written by the ppt branch of `Server.handleTransform`, plus the
trace of provider calls it made. -/
structure PptImageOutcome where
  imageError : Option Str
  slideURLs : Option (List Str)
  promptsSent : List Str
deriving DecidableEq

/-- The ppt branch of `Server.handleTransform` (src/unnamed/part_001 lines
995-1019): more than 10 parsed slides aborts image generation and records
the over-limit condition under `image_error` (the recorded message speaks of
a 20-page cap, but the guard is `> 10`); otherwise one image call is made
per slide in order and `metadata["slides"]` collects the successful URLs. -/
def Server_handleTransform_ppt (gen : Nat → Except GoError Str)
    (slides : List Slide) : PptImageOutcome :=
  if slides.length > 10 then
    ⟨some (gs "PPT页数超过20页上限，已停止生成图片"), none, []⟩
  else
    let loop := pptSlideLoop gen ((slides.headD ⟨[], []⟩).Style) 0 slides
    ⟨none, some loop.1, loop.2⟩

/-- Result of the infograph tail of `Server.handleTransform`: the note
content that is saved, the `image_url` / `image_error` metadata entries, and
the HTTP status of the request. -/
structure InfographOutcome where
  noteContent : Str
  imageURL : Option Str
  imageError : Option Str
  httpStatus : Nat
deriving DecidableEq

/-- Infograph tail of `Server.handleTransform` (src/unnamed/part_001 lines
978-992 and 1021-1045): on image success `metadata["image_url"]` gets the
web path of the saved file and the note's content is cleared; on failure
`metadata["image_error"]` records the message and the generated prompt text
is kept as the note content; either way the handler proceeds to save the
note (`createNoteOk` models the store call) and the image failure alone
never fails the request. -/
def Server_handleTransform_infograph (responseContent : Str)
    (imageOutcome : Except GoError Str) (createNoteOk : Bool) : InfographOutcome :=
  let meta :=
    match imageOutcome with
    | .error e =>
      (none, some (match e with | .mk m => m | .wrap m _ => m))
    | .ok imagePath => (some (gs "/api/files/" ++ filepathBase imagePath), none)
  let noteContent := if meta.1 ≠ none then [] else responseContent
  ⟨noteContent, meta.1, meta.2, if createNoteOk then 200 else 500⟩

/-- One recorded invocation of `execCommandContext` (src/backend/agent.go
lines 434-441): the command name and its arguments. -/
structure ExecCall where
  name : Str
  args : List Str
deriving DecidableEq

/-- `escapeShellArg` (src/backend/agent.go lines 429-431): wrap in single
quotes, expanding each embedded single quote. -/
def escapeShellArg (arg : Str) : Str :=
  ['\''] ++ (arg.flatMap (fun c => if c = '\'' then gs "'\"'\"'" else [c])) ++ ['\'']

/-- Outcome of one external command: combined output on success, or the
error together with the combined output. -/
abbrev ExecOutcome := Except (GoError × Str) Str

/-- `Agent.callDeepInsight` (src/backend/agent.go lines 401-426): build the
timestamped temporary report path, run the DeepInsight command, read the
report back with `/bin/cat`, and remove the temporary file with `/bin/rm`
only after both steps succeed — each error branch returns at once, before
the cleanup line.  The returned trace lists the commands actually executed,
in order. -/
def Agent_callDeepInsight (nowUnix : Nat) (summary : Str)
    (runDeepInsight runCat : ExecOutcome) : Except GoError Str × List ExecCall :=
  let tmpFile := gs "./tmp/deepinsight_report_" ++ natStr nowUnix ++ gs ".md"
  let diCall : ExecCall :=
    ⟨gs "./DeepInsight", [gs "-o", tmpFile, escapeShellArg summary]⟩
  match runDeepInsight with
  | .error eo =>
    (.error (.wrap (gs "DeepInsight command failed, output: " ++ eo.2) eo.1), [diCall])
  | .ok _output =>
    let catCall : ExecCall := ⟨gs "/bin/cat", [tmpFile]⟩
    match runCat with
    | .error eo =>
      (.error (.wrap (gs "failed to read DeepInsight report") eo.1), [diCall, catCall])
    | .ok reportContent =>
      let rmCall : ExecCall := ⟨gs "/bin/rm", [gs "-f", tmpFile]⟩
      (.ok reportContent, [diCall, catCall, rmCall])

/-- Whether a recorded command invocation removes the temporary report file:
an invocation of `/bin/rm` carrying that file among its arguments. -/
def removesTmpFile (tmpFile : Str) (call : ExecCall) : Bool :=
  call.name = gs "/bin/rm" && call.args.contains tmpFile

/-- The web URL the ppt branch derives from one provider outcome: the
`/api/files/` path of the saved image on success, nothing on failure. -/
def urlOfOutcome (o : Except GoError Str) : Option Str :=
  match o with
  | .ok p => some (gs "/api/files/" ++ filepathBase p)
  | .error _ => none

/-- The provider outcomes for `n` consecutive per-slide calls starting at
call index `i`. -/
def genOutcomes (gen : Nat → Except GoError Str) (i n : Nat) :
    List (Except GoError Str) :=
  (List.range n).map (fun j => gen (i + j))

theorem buildSourceContextFrom_append (maxCL : Int) (pre post : List Source)
    (src : Source) : ∀ i : Nat,
    buildSourceContextFrom maxCL i (pre ++ src :: post) =
      buildSourceContextFrom maxCL i pre
        ++ buildSourceContextFrom maxCL (i + pre.length) (src :: post) := by
  induction pre with
  | nil => intro i; simp [buildSourceContextFrom]
  | cons s rest ih =>
    intro i
    simp only [List.cons_append, buildSourceContextFrom, List.append_eq,
      ih (i + 1), List.append_assoc, List.length_cons]
    have h2 : i + 1 + rest.length = i + (rest.length + 1) := by omega
    rw [h2]

theorem buildHistoryChat_take (history : List ChatMessage) : ∀ i : Nat,
    buildHistoryChat i history =
      ((history.take (10 - i)).map renderChatMsg).flatten := by
  induction history with
  | nil => intro i; simp [buildHistoryChat]
  | cons msg rest ih =>
    intro i
    by_cases h : i ≥ 10
    · have : 10 - i = 0 := by omega
      simp [buildHistoryChat, h, this]
    · have h1 : 10 - i = (10 - (i + 1)) + 1 := by omega
      simp only [buildHistoryChat, if_neg h, ih (i + 1), h1, List.take_succ_cons,
        List.map_cons, List.flatten_cons]
      rfl

/-- C7: in the prompt assembled by `Agent.GenerateTransformation`, every
candidate source occupies a labeled section: content longer than the
effective limit (the configured `MaxContextLength`, or 100000 when that
value is non-positive) appears as exactly the first `limit` characters
followed by a truncation marker quoting the original total length; non-empty
content within the limit appears in full; empty content yields a placeholder
naming the source's name and type. -/
theorem c7_prompt_truncation (maxCL : Int) (pre post : List Source) (src : Source) :
    ∃ a b : Str,
      buildSourceContext maxCL (pre ++ src :: post) =
        a ++ (gs "\n## Source " ++ natStr (pre.length + 1) ++ gs ": " ++ src.Name ++ gs "\n")
          ++ (if (if maxCL ≤ 0 then 100000 else maxCL.toNat) < src.Content.length then
                src.Content.take (if maxCL ≤ 0 then 100000 else maxCL.toNat)
                  ++ gs "\n... [Content truncated, total length: "
                  ++ natStr src.Content.length ++ gs "]"
              else if src.Content ≠ [] then src.Content
              else gs "[Source content: " ++ src.Name ++ gs ", type: " ++ src.SType ++ gs "]")
          ++ (gs "\n" ++ b) := by
  refine ⟨buildSourceContextFrom maxCL 0 pre,
    buildSourceContextFrom maxCL (pre.length + 1) post, ?_⟩
  have h := buildSourceContextFrom_append maxCL pre post src 0
  simp only [buildSourceContext, h, Nat.zero_add, buildSourceContextFrom,
    List.append_assoc]
  by_cases hc : src.Content = []
  · have hlim : ¬ ((if maxCL ≤ 0 then 100000 else maxCL.toNat) < src.Content.length) := by
      simp [hc]
    simp [hc, hlim]
  · by_cases hl : src.Content.length ≤ (if maxCL ≤ 0 then 100000 else maxCL.toNat)
    · simp [hc, hl, Nat.not_lt.mpr hl]
    · simp [hc, hl, Nat.lt_of_not_le fun hcon => hl hcon]

/-- C4 counterexample: for an 11-message history the block `Agent.Chat`
substitutes into the prompt is the rendering of the FIRST ten messages (the
loop breaks at index 10), not of the last ten turns as the claim states. -/
theorem c4_last_ten_counterexample :
    (buildHistoryBlock ((List.range 11).map (fun k => ⟨gs "user", natStr k⟩)) =
        ((((List.range 11).map (fun k => (⟨gs "user", natStr k⟩ : ChatMessage))).take 10).map
          renderChatMsg).flatten) ∧
    buildHistoryBlock ((List.range 11).map (fun k => ⟨gs "user", natStr k⟩)) ≠
      lastTenHistoryBlock ((List.range 11).map (fun k => ⟨gs "user", natStr k⟩)) := by
  constructor <;> decide

/-- C4 (amended): the history block contains exactly the first 10 messages of
the conversation history, each rendered with its role label; a history of at
most 10 messages is included in full. -/
theorem c4_history_block_first_ten :
    (∀ history : List ChatMessage,
        buildHistoryBlock history = ((history.take 10).map renderChatMsg).flatten) ∧
    (∀ history : List ChatMessage, history.length ≤ 10 →
        buildHistoryBlock history = (history.map renderChatMsg).flatten) := by
  constructor
  · intro history
    simpa using buildHistoryChat_take history 0
  · intro history h
    rw [buildHistoryBlock, buildHistoryChat_take history 0]
    simp [List.take_of_length_le h]

/-- C4 witness: the amended claim evaluated on a concrete 2-message history. -/
theorem c4_history_block_witness :
    ([(⟨gs "user", gs "hi"⟩ : ChatMessage), ⟨gs "assistant", gs "yo"⟩].length ≤ 10) ∧
    buildHistoryBlock [⟨gs "user", gs "hi"⟩, ⟨gs "assistant", gs "yo"⟩] =
      ([(⟨gs "user", gs "hi"⟩ : ChatMessage), ⟨gs "assistant", gs "yo"⟩].map
        renderChatMsg).flatten :=
  ⟨by decide, c4_history_block_first_ten.2 _ (by decide)⟩

theorem orSingleSlide_ne_nil (style content : Str) (slides : List Slide) :
    orSingleSlide style content slides ≠ [] := by
  unfold orSingleSlide
  split
  · simp
  · assumption

/-- C9: `Agent.ParsePPTSlides` always returns a non-empty ordered sequence of
slides, whatever the heading matcher reports; and on an input with no
heading-line matches and no narrative-goal markers it returns exactly one
slide whose content is the entire input text. -/
theorem c9_parse_slides_nonempty_fallback :
    (∀ (findAllIndex : Str → List (Nat × Nat)) (content : Str),
        Agent_ParsePPTSlides findAllIndex content ≠ []) ∧
    (∀ (findAllIndex : Str → List (Nat × Nat)) (content : Str),
        findAllIndex content = [] →
        goContains content (gs "// 叙事目标") = false →
        goContains content (gs "// NARRATIVE GOAL") = false →
        (Agent_ParsePPTSlides findAllIndex content).map Slide.Content = [content]) := by
  constructor
  · intro f content
    unfold Agent_ParsePPTSlides
    apply orSingleSlide_ne_nil
  · intro f content hf h1 h2
    simp [Agent_ParsePPTSlides, hf, h1, h2, slideRegions, orSingleSlide]

/-- C9 witness: the parser evaluated on a concrete marker-free input with an
empty heading-match list. -/
theorem c9_parse_slides_witness :
    ((fun _ : Str => ([] : List (Nat × Nat))) (gs "plain text") = []) ∧
    (goContains (gs "plain text") (gs "// 叙事目标") = false) ∧
    (goContains (gs "plain text") (gs "// NARRATIVE GOAL") = false) ∧
    (Agent_ParsePPTSlides (fun _ => []) (gs "plain text")).map Slide.Content =
      [gs "plain text"] :=
  ⟨rfl, by decide, by decide,
    c9_parse_slides_nonempty_fallback.2 (fun _ => []) (gs "plain text") rfl
      (by decide) (by decide)⟩

/-- C3: `Agent.callDeepInsight` removes the temporary report file only when
both the DeepInsight command and the report read succeed.  On a failing
DeepInsight run, and likewise on a failing report read, the function returns
before the cleanup line and `/bin/rm` is never invoked on the temporary
file; only the fully successful run ends with the cleanup call. -/
theorem c3_tmpfile_not_removed_on_failure :
    (((Agent_callDeepInsight 1700000000 (gs "sum")
          (.error (.mk (gs "exit status 1"), gs "boom")) (.ok (gs "report"))).2.filter
        (removesTmpFile (gs "./tmp/deepinsight_report_1700000000.md"))) = [] ∧
      (Agent_callDeepInsight 1700000000 (gs "sum")
          (.error (.mk (gs "exit status 1"), gs "boom")) (.ok (gs "report"))).1.isOk
        = false) ∧
    (((Agent_callDeepInsight 1700000000 (gs "sum") (.ok (gs ""))
          (.error (.mk (gs "exit status 1"), gs "no such file"))).2.filter
        (removesTmpFile (gs "./tmp/deepinsight_report_1700000000.md"))) = [] ∧
      (Agent_callDeepInsight 1700000000 (gs "sum") (.ok (gs ""))
          (.error (.mk (gs "exit status 1"), gs "no such file"))).1.isOk = false) ∧
    (((Agent_callDeepInsight 1700000000 (gs "sum") (.ok (gs ""))
          (.ok (gs "report"))).2.filter
        (removesTmpFile (gs "./tmp/deepinsight_report_1700000000.md"))) ≠ [] ∧
      (Agent_callDeepInsight 1700000000 (gs "sum") (.ok (gs "")) (.ok (gs "report"))).1
        = .ok (gs "report")) := by
  refine ⟨⟨?_, ?_⟩, ⟨?_, ?_⟩, ⟨?_, ?_⟩⟩ <;> decide

/-- C10 counterexample: when the generated infographic prompt text is empty
and the image generation fails, the saved note's content is empty even
though the image generation did not succeed — refuting the claimed
"empty if and only if succeeded". -/
theorem c10_empty_content_counterexample :
    ((Server_handleTransform_infograph [] (.error (.mk (gs "image generation failed")))
        true).noteContent = []) ∧
    ((Server_handleTransform_infograph [] (.error (.mk (gs "image generation failed")))
        true).imageURL = none) ∧
    ((Server_handleTransform_infograph [] (.error (.mk (gs "image generation failed")))
        true).imageError = some (gs "image generation failed")) ∧
    ¬ (((Server_handleTransform_infograph [] (.error (.mk (gs "image generation failed")))
        true).noteContent = []) ↔
      ((Server_handleTransform_infograph [] (.error (.mk (gs "image generation failed")))
        true).imageURL ≠ none)) := by
  refine ⟨?_, ?_, ?_, ?_⟩ <;> decide

/-- C10 (amended): on image success the note's content is cleared and
`image_url` carries the image's web path; on image failure the generated
prompt text is kept as the note's content, `image_error` records the failure,
and the request still succeeds; and provided the generated prompt text is
non-empty, the saved content is empty exactly when image generation
succeeded. -/
theorem c10_infograph_content_metadata (responseContent : Str)
    (imageOutcome : Except GoError Str) (createNoteOk : Bool) :
    (∀ p, imageOutcome = .ok p →
      (Server_handleTransform_infograph responseContent imageOutcome createNoteOk).noteContent
          = [] ∧
        (Server_handleTransform_infograph responseContent imageOutcome createNoteOk).imageURL
          = some (gs "/api/files/" ++ filepathBase p) ∧
        (Server_handleTransform_infograph responseContent imageOutcome createNoteOk).imageError
          = none) ∧
    (∀ e, imageOutcome = .error e →
      (Server_handleTransform_infograph responseContent imageOutcome createNoteOk).noteContent
          = responseContent ∧
        (Server_handleTransform_infograph responseContent imageOutcome createNoteOk).imageURL
          = none ∧
        (Server_handleTransform_infograph responseContent imageOutcome createNoteOk).imageError.isSome
          = true ∧
        (createNoteOk = true →
          (Server_handleTransform_infograph responseContent imageOutcome createNoteOk).httpStatus
            = 200)) ∧
    (responseContent ≠ [] →
      ((Server_handleTransform_infograph responseContent imageOutcome createNoteOk).noteContent
          = [] ↔ ∃ p, imageOutcome = .ok p)) := by
  refine ⟨?_, ?_, ?_⟩
  · intro p hp
    subst hp
    simp [Server_handleTransform_infograph]
  · intro e he
    subst he
    refine ⟨?_, ?_, ?_, ?_⟩
    · simp [Server_handleTransform_infograph]
    · simp [Server_handleTransform_infograph]
    · cases e <;> simp [Server_handleTransform_infograph]
    · intro hok
      simp [Server_handleTransform_infograph, hok]
  · intro hrc
    cases imageOutcome with
    | ok p => simp [Server_handleTransform_infograph]
    | error e => simp [Server_handleTransform_infograph, hrc]

/-- C10 witness: the amended claim evaluated at a failing image generation
over a non-empty generated prompt. -/
theorem c10_infograph_witness :
    (gs "x" ≠ []) ∧
    ((Server_handleTransform_infograph (gs "x") (.error (.mk (gs "err"))) true).noteContent
        = gs "x" ∧
      (Server_handleTransform_infograph (gs "x") (.error (.mk (gs "err"))) true).imageURL
        = none ∧
      (Server_handleTransform_infograph (gs "x") (.error (.mk (gs "err"))) true).imageError.isSome
        = true ∧
      (true = true →
        (Server_handleTransform_infograph (gs "x") (.error (.mk (gs "err"))) true).httpStatus
          = 200)) ∧
    ((Server_handleTransform_infograph (gs "x") (.error (.mk (gs "err"))) true).noteContent
        = [] ↔ ∃ p, (Except.error (GoError.mk (gs "err")) : Except GoError Str) = .ok p) :=
  ⟨by decide,
    (c10_infograph_content_metadata (gs "x") (.error (.mk (gs "err"))) true).2.1 _ rfl,
    (c10_infograph_content_metadata (gs "x") (.error (.mk (gs "err"))) true).2.2 (by decide)⟩

/-- C1: the chat retrieval is not scoped to the requested notebook.
`Agent.Chat` passes only the question and the result bound to
`SimilaritySearch` — never the notebook ID — so with the shared index
holding a chunk ingested for notebook `nb-B`, a chat against notebook
`nb-A` builds its prompt context from that chunk and cites its source in
the returned summaries. -/
theorem c1_search_not_notebook_scoped :
    Agent_Chat_docs (fun _ _ => 0)
        ((IngestText (fun t => [t]) (gs "nb-B") (gs "docB") (gs "hello") []).2) 1 (gs "q")
      = [⟨gs "nb-B", gs "docB", gs "hello"⟩] ∧
    (⟨gs "nb-B", gs "docB", gs "hello"⟩ : Chunk).notebookID ≠ gs "nb-A" ∧
    (Agent_Chat (fun _ _ => 0)
        ((IngestText (fun t => [t]) (gs "nb-B") (gs "docB") (gs "hello") []).2) 1
        (gs "nb-A") (gs "q") [] (gs "ans")).Sources
      = [⟨gs "docB", gs "docB", gs "file"⟩] ∧
    (Agent_Chat (fun _ _ => 0)
        ((IngestText (fun t => [t]) (gs "nb-B") (gs "docB") (gs "hello") []).2) 1
        (gs "nb-A") (gs "q") [] (gs "ans")).SessionID = gs "nb-A" := by
  refine ⟨?_, ?_, ?_, ?_⟩ <;> decide

theorem loadFold_spec (ch : Str → List Str) (nb : Str) (srcs : List Source) :
    ∀ (chunks : List Chunk) (names : List Str),
      srcs.foldl
        (fun acc src =>
          if src.Content ≠ [] then
            ((IngestText ch nb src.Name src.Content acc.1).2, acc.2 ++ [src.Name])
          else acc)
        (chunks, names)
      = (chunks ++ ((srcs.filter (fun s => s.Content ≠ [])).map
            (fun s => (ch s.Content).map (fun t => (⟨nb, s.Name, t⟩ : Chunk)))).flatten,
          names ++ (srcs.filter (fun s => s.Content ≠ [])).map Source.Name) := by
  induction srcs with
  | nil => intro chunks names; simp
  | cons s rest ih =>
    intro chunks names
    rw [List.foldl_cons]
    by_cases h : s.Content = []
    · rw [show (if s.Content ≠ [] then
          ((IngestText ch nb s.Name s.Content (chunks, names).1).2,
            (chunks, names).2 ++ [s.Name])
        else ((chunks, names) : List Chunk × List Str)) = (chunks, names) from
          if_neg (not_not_intro h)]
      rw [ih chunks names]
      simp [List.filter_cons, h]
    · rw [show (if s.Content ≠ [] then
          ((IngestText ch nb s.Name s.Content (chunks, names).1).2,
            (chunks, names).2 ++ [s.Name])
        else ((chunks, names) : List Chunk × List Str)) =
          ((IngestText ch nb s.Name s.Content chunks).2, names ++ [s.Name]) from
          if_pos h]
      rw [ih ((IngestText ch nb s.Name s.Content chunks).2) (names ++ [s.Name])]
      simp [IngestText, List.filter_cons, h, List.append_assoc]

theorem load_already_loaded (ch : Str → List Str)
    (ls : Except GoError (List Source)) (st : SrvState) (nb : Str)
    (h : st.loadedNotebooks.contains nb = true) :
    Server_loadNotebookVectorIndex ch ls st nb = (st, ⟨false, []⟩, .ok ()) := by
  unfold Server_loadNotebookVectorIndex
  rw [if_pos h]

theorem loadIter_loaded (ch : Str → List Str) (ls : Except GoError (List Source))
    (nb : Str) : ∀ (k : Nat) (st : SrvState),
    st.loadedNotebooks.contains nb = true → loadIter ch ls nb k st = st := by
  intro k
  induction k with
  | zero => intro st _; rfl
  | succ k ih =>
    intro st h
    rw [loadIter, load_already_loaded ch ls st nb h]
    exact ih st h

/-- C8: the on-demand vector-index loader is idempotent per notebook.  Once a
notebook is marked loaded, every invocation returns at once — no source
listing, no ingestion, state unchanged.  A fresh load ingests exactly the
sources with non-empty content, once each in order (appending exactly their
chunks to the store), skips empty-content sources without error, marks the
notebook loaded, and every number of further invocations leaves the state —
hence the chunks — unchanged. -/
theorem c8_loader_idempotent :
    (∀ (chunker : Str → List Str) (listSources : Except GoError (List Source))
        (st : SrvState) (nb : Str),
        st.loadedNotebooks.contains nb = true →
        Server_loadNotebookVectorIndex chunker listSources st nb
          = (st, ⟨false, []⟩, .ok ())) ∧
    (∀ (chunker : Str → List Str) (srcs : List Source) (st : SrvState) (nb : Str),
        st.loadedNotebooks.contains nb = false →
        (Server_loadNotebookVectorIndex chunker (.ok srcs) st nb).2.2 = .ok () ∧
        (Server_loadNotebookVectorIndex chunker (.ok srcs) st nb).2.1
          = ⟨true, (srcs.filter (fun s => s.Content ≠ [])).map Source.Name⟩ ∧
        (Server_loadNotebookVectorIndex chunker (.ok srcs) st nb).1.chunks
          = st.chunks ++ ((srcs.filter (fun s => s.Content ≠ [])).map
              (fun s => (chunker s.Content).map (fun t => (⟨nb, s.Name, t⟩ : Chunk)))).flatten ∧
        (Server_loadNotebookVectorIndex chunker (.ok srcs) st nb).1.loadedNotebooks.contains nb
          = true ∧
        ∀ k, loadIter chunker (.ok srcs) nb k
              (Server_loadNotebookVectorIndex chunker (.ok srcs) st nb).1
            = (Server_loadNotebookVectorIndex chunker (.ok srcs) st nb).1) := by
  constructor
  · intro chunker ls st nb h
    exact load_already_loaded chunker ls st nb h
  · intro chunker srcs st nb h
    have hfold := loadFold_spec chunker nb srcs st.chunks []
    have hload : Server_loadNotebookVectorIndex chunker (.ok srcs) st nb
        = (⟨nb :: st.loadedNotebooks,
            st.chunks ++ ((srcs.filter (fun s => s.Content ≠ [])).map
              (fun s => (chunker s.Content).map (fun t => (⟨nb, s.Name, t⟩ : Chunk)))).flatten⟩,
          ⟨true, (srcs.filter (fun s => s.Content ≠ [])).map Source.Name⟩, .ok ()) := by
      simp only [Server_loadNotebookVectorIndex, h, Bool.false_eq_true, if_false, hfold]
      simp
    refine ⟨by rw [hload], by rw [hload], by rw [hload], ?_, ?_⟩
    · rw [hload]
      simp
    · intro k
      apply loadIter_loaded
      rw [hload]
      simp

/-- C8 witness: a fresh load over one non-empty and one empty source, with
two further invocations leaving the state unchanged. -/
theorem c8_loader_witness :
    ((⟨[], []⟩ : SrvState).loadedNotebooks.contains (gs "n") = false) ∧
    (Server_loadNotebookVectorIndex (fun t => [t])
        (.ok [⟨gs "id1", gs "a", gs "file", gs "x"⟩, ⟨gs "id2", gs "b", gs "file", []⟩])
        ⟨[], []⟩ (gs "n")).2.2 = .ok () ∧
    (Server_loadNotebookVectorIndex (fun t => [t])
        (.ok [⟨gs "id1", gs "a", gs "file", gs "x"⟩, ⟨gs "id2", gs "b", gs "file", []⟩])
        ⟨[], []⟩ (gs "n")).2.1
      = ⟨true, ([(⟨gs "id1", gs "a", gs "file", gs "x"⟩ : Source),
          ⟨gs "id2", gs "b", gs "file", []⟩].filter (fun s => s.Content ≠ [])).map
            Source.Name⟩ ∧
    (Server_loadNotebookVectorIndex (fun t => [t])
        (.ok [⟨gs "id1", gs "a", gs "file", gs "x"⟩, ⟨gs "id2", gs "b", gs "file", []⟩])
        ⟨[], []⟩ (gs "n")).1.loadedNotebooks.contains (gs "n") = true ∧
    loadIter (fun t => [t])
        (.ok [⟨gs "id1", gs "a", gs "file", gs "x"⟩, ⟨gs "id2", gs "b", gs "file", []⟩])
        (gs "n") 2
        (Server_loadNotebookVectorIndex (fun t => [t])
          (.ok [⟨gs "id1", gs "a", gs "file", gs "x"⟩, ⟨gs "id2", gs "b", gs "file", []⟩])
          ⟨[], []⟩ (gs "n")).1
      = (Server_loadNotebookVectorIndex (fun t => [t])
          (.ok [⟨gs "id1", gs "a", gs "file", gs "x"⟩, ⟨gs "id2", gs "b", gs "file", []⟩])
          ⟨[], []⟩ (gs "n")).1 := by
  have h := c8_loader_idempotent.2 (fun t => [t])
    [⟨gs "id1", gs "a", gs "file", gs "x"⟩, ⟨gs "id2", gs "b", gs "file", []⟩]
    ⟨[], []⟩ (gs "n") (by decide)
  exact ⟨by decide, h.1, h.2.1, h.2.2.2.1, h.2.2.2.2 2⟩

theorem pptLoop_prompts (gen : Nat → Except GoError Str) (style0 : Str)
    (slides : List Slide) : ∀ i : Nat,
    (pptSlideLoop gen style0 i slides).2 = slides.map (pptSlidePrompt style0) := by
  induction slides with
  | nil => intro i; simp [pptSlideLoop]
  | cons slide rest ih =>
    intro i
    cases hg : gen i <;> simp [pptSlideLoop, hg, ih (i + 1)]

theorem genOutcomes_succ (gen : Nat → Except GoError Str) (i n : Nat) :
    genOutcomes gen i (n + 1) = gen i :: genOutcomes gen (i + 1) n := by
  unfold genOutcomes
  rw [List.range_succ_eq_map, List.map_cons, Nat.add_zero, List.map_map]
  congr 1
  apply List.map_congr_left
  intro j _
  simp only [Function.comp_apply]
  congr 1
  omega

theorem pptLoop_urls (gen : Nat → Except GoError Str) (style0 : Str)
    (slides : List Slide) : ∀ i : Nat,
    (pptSlideLoop gen style0 i slides).1
      = (genOutcomes gen i slides.length).filterMap urlOfOutcome := by
  induction slides with
  | nil => intro i; simp [pptSlideLoop, genOutcomes]
  | cons slide rest ih =>
    intro i
    rw [List.length_cons, genOutcomes_succ, List.filterMap_cons]
    cases hg : gen i <;> simp [pptSlideLoop, hg, ih (i + 1), urlOfOutcome]

/-- C6: for a slide deck parsing into more than 10 slides, the transform
handler makes no per-slide image calls and records the over-limit condition
under `image_error`; for at most 10 slides it makes exactly one call per
slide, in order, and collects under `slides` the URLs of the successful
ones, omitting failed slides without aborting the rest. -/
theorem c6_ppt_slide_cap (gen : Nat → Except GoError Str) (slides : List Slide) :
    (slides.length > 10 →
      Server_handleTransform_ppt gen slides
        = ⟨some (gs "PPT页数超过20页上限，已停止生成图片"), none, []⟩) ∧
    (slides.length ≤ 10 →
      (Server_handleTransform_ppt gen slides).imageError = none ∧
      (Server_handleTransform_ppt gen slides).promptsSent
        = slides.map (pptSlidePrompt (slides.headD ⟨[], []⟩).Style) ∧
      (Server_handleTransform_ppt gen slides).slideURLs
        = some ((genOutcomes gen 0 slides.length).filterMap urlOfOutcome)) := by
  constructor
  · intro h
    simp [Server_handleTransform_ppt, h]
  · intro h
    have hn : ¬ slides.length > 10 := by omega
    refine ⟨?_, ?_, ?_⟩
    · simp [Server_handleTransform_ppt, hn]
    · simp [Server_handleTransform_ppt, hn, pptLoop_prompts]
    · simp [Server_handleTransform_ppt, hn, pptLoop_urls gen _ slides 0]

/-- C6 witness: the cap refusal on 11 slides and the per-slide loop on a
3-slide deck whose second slide fails. -/
theorem c6_ppt_slide_cap_witness :
    ((List.replicate 11 (⟨[], []⟩ : Slide)).length > 10) ∧
    Server_handleTransform_ppt
        (fun j => if j = 1 then Except.error (GoError.mk (gs "boom"))
          else Except.ok (gs "./data/uploads/u1/img.png"))
        (List.replicate 11 ⟨[], []⟩)
      = ⟨some (gs "PPT页数超过20页上限，已停止生成图片"), none, []⟩ ∧
    (([(⟨gs "s", gs "c0"⟩ : Slide), ⟨gs "s", gs "c1"⟩, ⟨gs "s", gs "c2"⟩]).length ≤ 10) ∧
    (Server_handleTransform_ppt
        (fun j => if j = 1 then Except.error (GoError.mk (gs "boom"))
          else Except.ok (gs "./data/uploads/u1/img.png"))
        [⟨gs "s", gs "c0"⟩, ⟨gs "s", gs "c1"⟩, ⟨gs "s", gs "c2"⟩]).promptsSent
      = ([(⟨gs "s", gs "c0"⟩ : Slide), ⟨gs "s", gs "c1"⟩, ⟨gs "s", gs "c2"⟩]).map
          (pptSlidePrompt (([(⟨gs "s", gs "c0"⟩ : Slide), ⟨gs "s", gs "c1"⟩,
            ⟨gs "s", gs "c2"⟩]).headD ⟨[], []⟩).Style) ∧
    (Server_handleTransform_ppt
        (fun j => if j = 1 then Except.error (GoError.mk (gs "boom"))
          else Except.ok (gs "./data/uploads/u1/img.png"))
        [⟨gs "s", gs "c0"⟩, ⟨gs "s", gs "c1"⟩, ⟨gs "s", gs "c2"⟩]).slideURLs
      = some ((genOutcomes
          (fun j => if j = 1 then Except.error (GoError.mk (gs "boom"))
            else Except.ok (gs "./data/uploads/u1/img.png")) 0 3).filterMap
          urlOfOutcome) := by
  have h2 := (c6_ppt_slide_cap
    (fun j => if j = 1 then Except.error (GoError.mk (gs "boom"))
      else Except.ok (gs "./data/uploads/u1/img.png"))
    [⟨gs "s", gs "c0"⟩, ⟨gs "s", gs "c1"⟩, ⟨gs "s", gs "c2"⟩]).2 (by decide)
  have h1 := (c6_ppt_slide_cap
    (fun j => if j = 1 then Except.error (GoError.mk (gs "boom"))
      else Except.ok (gs "./data/uploads/u1/img.png"))
    (List.replicate 11 ⟨[], []⟩)).1 (by decide)
  exact ⟨by decide, h1, by decide, h2.2.1, h2.2.2⟩

theorem geminiLoop_retry_step (call : Nat → Except GoError GenResp) (fs : FsOutcome)
    (nowNano : Nat) (fuel idx : Nat) (e : GoError)
    (h : retriesOn (call idx) = true) :
    geminiAttemptLoop call fs nowNano (fuel + 1) idx e
      = ((geminiAttemptLoop call fs nowNano fuel (idx + 1) (recordedErr (call idx))).1,
          ((if idx > 1 then [GenEv.sleepSecs 2] else [])
              ++ [GenEv.upstreamCall idx 300])
            ++ (geminiAttemptLoop call fs nowNano fuel (idx + 1)
                (recordedErr (call idx))).2) := by
  cases hcall : call idx with
  | error e' => simp [geminiAttemptLoop, hcall, recordedErr]
  | ok resp =>
    cases hr : resp.candidates with
    | nil => simp [geminiAttemptLoop, hcall, hr, recordedErr]
    | cons c0 cs =>
      by_cases hc : c0.content = none
      · simp [geminiAttemptLoop, hcall, hr, hc, recordedErr]
      · have himg : extractImageData (c0.content.getD ⟨[]⟩).parts = [] := by
          have h' := h
          simp [retriesOn, hcall, hr, hc] at h'
          exact h'
        simp [geminiAttemptLoop, hcall, hr, hc, himg, recordedErr]

theorem geminiLoop_stop_trace (call : Nat → Except GoError GenResp) (fs : FsOutcome)
    (nowNano : Nat) (fuel idx : Nat) (e : GoError)
    (h : retriesOn (call idx) = false) :
    (geminiAttemptLoop call fs nowNano (fuel + 1) idx e).2
      = (if idx > 1 then [GenEv.sleepSecs 2] else [])
          ++ [GenEv.upstreamCall idx 300] := by
  cases hcall : call idx with
  | error e' => simp [retriesOn, hcall] at h
  | ok resp =>
    cases hr : resp.candidates with
    | nil => simp [retriesOn, hcall, hr] at h
    | cons c0 cs =>
      have hc : ¬ c0.content = none := by
        intro hcc
        simp [retriesOn, hcall, hr, hcc] at h
      have himg : ¬ extractImageData (c0.content.getD ⟨[]⟩).parts = [] := by
        intro hi
        simp [retriesOn, hcall, hr, hc, hi] at h
      cases hm : fs.mkdirErr with
      | some em => simp [geminiAttemptLoop, hcall, hr, hc, himg, hm]
      | none =>
        cases hw : fs.writeErr with
        | some ew => simp [geminiAttemptLoop, hcall, hr, hc, himg, hm, hw]
        | none => simp [geminiAttemptLoop, hcall, hr, hc, himg, hm, hw]

theorem geminiLoop_success_result (call : Nat → Except GoError GenResp)
    (nowNano : Nat) (fuel idx : Nat) (e : GoError)
    (h : retriesOn (call idx) = false) :
    (geminiAttemptLoop call ⟨none, none⟩ nowNano (fuel + 1) idx e).1
      = .ok (gs "./data/uploads/infograph_" ++ natStr nowNano ++ gs ".png") := by
  cases hcall : call idx with
  | error e' => simp [retriesOn, hcall] at h
  | ok resp =>
    cases hr : resp.candidates with
    | nil => simp [retriesOn, hcall, hr] at h
    | cons c0 cs =>
      have hc : ¬ c0.content = none := by
        intro hcc
        simp [retriesOn, hcall, hr, hcc] at h
      have himg : ¬ extractImageData (c0.content.getD ⟨[]⟩).parts = [] := by
        intro hi
        simp [retriesOn, hcall, hr, hc, hi] at h
      simp [geminiAttemptLoop, hcall, hr, hc, himg]

theorem geminiLoop_trace (call : Nat → Except GoError GenResp) (fs : FsOutcome)
    (nowNano : Nat) : ∀ (fuel idx : Nat) (e : GoError),
    ∃ n, n ≤ fuel ∧ (1 ≤ fuel → 1 ≤ n) ∧
      (geminiAttemptLoop call fs nowNano fuel idx e).2 = attemptsFrom idx n := by
  intro fuel
  induction fuel with
  | zero =>
    intro idx e
    exact ⟨0, le_rfl, by omega, rfl⟩
  | succ fuel ih =>
    intro idx e
    by_cases hr : retriesOn (call idx) = true
    · obtain ⟨n, hn, _, htr⟩ := ih (idx + 1) (recordedErr (call idx))
      refine ⟨n + 1, by omega, by omega, ?_⟩
      rw [geminiLoop_retry_step call fs nowNano fuel idx e hr]
      simp [attemptsFrom, htr]
    · have hr' : retriesOn (call idx) = false := by simpa using hr
      refine ⟨1, by omega, by omega, ?_⟩
      rw [geminiLoop_stop_trace call fs nowNano fuel idx e hr']
      simp [attemptsFrom]

theorem geminiLoop_success_step (call : Nat → Except GoError GenResp)
    (nowNano : Nat) (fuel idx : Nat) (e : GoError)
    (h : retriesOn (call idx) = false) :
    geminiAttemptLoop call ⟨none, none⟩ nowNano (fuel + 1) idx e
      = (.ok (gs "./data/uploads/infograph_" ++ natStr nowNano ++ gs ".png"),
          (if idx > 1 then [GenEv.sleepSecs 2] else [])
            ++ [GenEv.upstreamCall idx 300]) := by
  cases hcall : call idx with
  | error e' => simp [retriesOn, hcall] at h
  | ok resp =>
    cases hr : resp.candidates with
    | nil => simp [retriesOn, hcall, hr] at h
    | cons c0 cs =>
      have hc : ¬ c0.content = none := by
        intro hcc
        simp [retriesOn, hcall, hr, hcc] at h
      have himg : ¬ extractImageData (c0.content.getD ⟨[]⟩).parts = [] := by
        intro hi
        simp [retriesOn, hcall, hr, hc, hi] at h
      simp [geminiAttemptLoop, hcall, hr, hc, himg]

theorem gemini_entry (googleAPIKey : Str) (hkey : googleAPIKey ≠ [])
    (call : Nat → Except GoError GenResp) (fs : FsOutcome) (nowNano : Nat) :
    GeminiClient_GenerateImage googleAPIKey none call fs nowNano
      = geminiAttemptLoop call fs nowNano 3 1 (.mk []) := by
  simp [GeminiClient_GenerateImage, hkey]

/-- C2: with a configured credential, `GeminiClient.GenerateImage` makes at
most 3 upstream attempts, each under its own 300-second timeout and each
attempt after the first immediately preceded by the fixed 2-second backoff
(the trace always equals `attemptsFrom 1 n` for some `1 ≤ n ≤ 3`); a
transport error, an empty/nil candidate list, or a missing image payload
(`retriesOn`) triggers the next attempt, and three such failures return an
error wrapping the last recorded error after exactly 3 attempts; with a
working file system, the first non-retriable attempt stops the loop and
returns the saved file path, after exactly that many attempts. -/
theorem c2_gemini_retry_policy (googleAPIKey : Str) (hkey : googleAPIKey ≠ [])
    (call : Nat → Except GoError GenResp) (fs : FsOutcome) (nowNano : Nat) :
    (∃ n, 1 ≤ n ∧ n ≤ 3 ∧
      (GeminiClient_GenerateImage googleAPIKey none call fs nowNano).2
        = attemptsFrom 1 n) ∧
    (retriesOn (call 1) = true → retriesOn (call 2) = true →
      retriesOn (call 3) = true →
      GeminiClient_GenerateImage googleAPIKey none call fs nowNano
        = (.error (.wrap (gs "failed to generate image after 3 attempts")
            (recordedErr (call 3))), attemptsFrom 1 3)) ∧
    (fs = ⟨none, none⟩ →
      (retriesOn (call 1) = false →
        GeminiClient_GenerateImage googleAPIKey none call fs nowNano
          = (.ok (gs "./data/uploads/infograph_" ++ natStr nowNano ++ gs ".png"),
              attemptsFrom 1 1)) ∧
      (retriesOn (call 1) = true → retriesOn (call 2) = false →
        GeminiClient_GenerateImage googleAPIKey none call fs nowNano
          = (.ok (gs "./data/uploads/infograph_" ++ natStr nowNano ++ gs ".png"),
              attemptsFrom 1 2)) ∧
      (retriesOn (call 1) = true → retriesOn (call 2) = true →
        retriesOn (call 3) = false →
        GeminiClient_GenerateImage googleAPIKey none call fs nowNano
          = (.ok (gs "./data/uploads/infograph_" ++ natStr nowNano ++ gs ".png"),
              attemptsFrom 1 3))) := by
  have hE := gemini_entry googleAPIKey hkey call fs nowNano
  refine ⟨?_, ?_, ?_⟩
  · obtain ⟨n, hn3, h1n, htr⟩ := geminiLoop_trace call fs nowNano 3 1 (.mk [])
    exact ⟨n, h1n (by omega), hn3, by rw [hE, htr]⟩
  · intro h1 h2 h3
    rw [hE]
    have e1 : geminiAttemptLoop call fs nowNano 3 1 (GoError.mk [])
        = ((geminiAttemptLoop call fs nowNano 2 2 (recordedErr (call 1))).1,
            ((if (1 : Nat) > 1 then [GenEv.sleepSecs 2] else [])
                ++ [GenEv.upstreamCall 1 300])
              ++ (geminiAttemptLoop call fs nowNano 2 2 (recordedErr (call 1))).2) :=
      geminiLoop_retry_step call fs nowNano 2 1 (GoError.mk []) h1
    have e2 : geminiAttemptLoop call fs nowNano 2 2 (recordedErr (call 1))
        = ((geminiAttemptLoop call fs nowNano 1 3 (recordedErr (call 2))).1,
            ((if (2 : Nat) > 1 then [GenEv.sleepSecs 2] else [])
                ++ [GenEv.upstreamCall 2 300])
              ++ (geminiAttemptLoop call fs nowNano 1 3 (recordedErr (call 2))).2) :=
      geminiLoop_retry_step call fs nowNano 1 2 (recordedErr (call 1)) h2
    have e3 : geminiAttemptLoop call fs nowNano 1 3 (recordedErr (call 2))
        = ((geminiAttemptLoop call fs nowNano 0 4 (recordedErr (call 3))).1,
            ((if (3 : Nat) > 1 then [GenEv.sleepSecs 2] else [])
                ++ [GenEv.upstreamCall 3 300])
              ++ (geminiAttemptLoop call fs nowNano 0 4 (recordedErr (call 3))).2) :=
      geminiLoop_retry_step call fs nowNano 0 3 (recordedErr (call 2)) h3
    have e4 : geminiAttemptLoop call fs nowNano 0 4 (recordedErr (call 3))
        = (.error (.wrap (gs "failed to generate image after 3 attempts")
            (recordedErr (call 3))), []) := rfl
    rw [e1, e2, e3, e4]
    simp [attemptsFrom]
  · intro hfs
    subst hfs
    have hE' := gemini_entry googleAPIKey hkey call ⟨none, none⟩ nowNano
    refine ⟨?_, ?_, ?_⟩
    · intro h1
      rw [hE']
      have e1 : geminiAttemptLoop call ⟨none, none⟩ nowNano 3 1 (GoError.mk [])
          = (.ok (gs "./data/uploads/infograph_" ++ natStr nowNano ++ gs ".png"),
              (if (1 : Nat) > 1 then [GenEv.sleepSecs 2] else [])
                ++ [GenEv.upstreamCall 1 300]) :=
        geminiLoop_success_step call nowNano 2 1 (GoError.mk []) h1
      rw [e1]
      simp [attemptsFrom]
    · intro h1 h2
      rw [hE']
      have e1 : geminiAttemptLoop call ⟨none, none⟩ nowNano 3 1 (GoError.mk [])
          = ((geminiAttemptLoop call ⟨none, none⟩ nowNano 2 2 (recordedErr (call 1))).1,
              ((if (1 : Nat) > 1 then [GenEv.sleepSecs 2] else [])
                  ++ [GenEv.upstreamCall 1 300])
                ++ (geminiAttemptLoop call ⟨none, none⟩ nowNano 2 2
                    (recordedErr (call 1))).2) :=
        geminiLoop_retry_step call ⟨none, none⟩ nowNano 2 1 (GoError.mk []) h1
      have e2 : geminiAttemptLoop call ⟨none, none⟩ nowNano 2 2 (recordedErr (call 1))
          = (.ok (gs "./data/uploads/infograph_" ++ natStr nowNano ++ gs ".png"),
              (if (2 : Nat) > 1 then [GenEv.sleepSecs 2] else [])
                ++ [GenEv.upstreamCall 2 300]) :=
        geminiLoop_success_step call nowNano 1 2 (recordedErr (call 1)) h2
      rw [e1, e2]
      simp [attemptsFrom]
    · intro h1 h2 h3
      rw [hE']
      have e1 : geminiAttemptLoop call ⟨none, none⟩ nowNano 3 1 (GoError.mk [])
          = ((geminiAttemptLoop call ⟨none, none⟩ nowNano 2 2 (recordedErr (call 1))).1,
              ((if (1 : Nat) > 1 then [GenEv.sleepSecs 2] else [])
                  ++ [GenEv.upstreamCall 1 300])
                ++ (geminiAttemptLoop call ⟨none, none⟩ nowNano 2 2
                    (recordedErr (call 1))).2) :=
        geminiLoop_retry_step call ⟨none, none⟩ nowNano 2 1 (GoError.mk []) h1
      have e2 : geminiAttemptLoop call ⟨none, none⟩ nowNano 2 2 (recordedErr (call 1))
          = ((geminiAttemptLoop call ⟨none, none⟩ nowNano 1 3 (recordedErr (call 2))).1,
              ((if (2 : Nat) > 1 then [GenEv.sleepSecs 2] else [])
                  ++ [GenEv.upstreamCall 2 300])
                ++ (geminiAttemptLoop call ⟨none, none⟩ nowNano 1 3
                    (recordedErr (call 2))).2) :=
        geminiLoop_retry_step call ⟨none, none⟩ nowNano 1 2 (recordedErr (call 1)) h2
      have e3 : geminiAttemptLoop call ⟨none, none⟩ nowNano 1 3 (recordedErr (call 2))
          = (.ok (gs "./data/uploads/infograph_" ++ natStr nowNano ++ gs ".png"),
              (if (3 : Nat) > 1 then [GenEv.sleepSecs 2] else [])
                ++ [GenEv.upstreamCall 3 300]) :=
        geminiLoop_success_step call nowNano 0 3 (recordedErr (call 2)) h3
      rw [e1, e2, e3]
      simp [attemptsFrom]

/-- C2 witness: a transient transport failure on attempt 1 followed by a
successful attempt 2 — the call succeeds with exactly two attempts. -/
theorem c2_gemini_retry_witness :
    ((gs "key") ≠ []) ∧
    retriesOn ((fun i => if i = 1 then Except.error (GoError.mk (gs "net"))
        else Except.ok (⟨[⟨some ⟨[⟨some [1]⟩]⟩⟩]⟩ : GenResp)) 1) = true ∧
    retriesOn ((fun i => if i = 1 then Except.error (GoError.mk (gs "net"))
        else Except.ok (⟨[⟨some ⟨[⟨some [1]⟩]⟩⟩]⟩ : GenResp)) 2) = false ∧
    GeminiClient_GenerateImage (gs "key") none
        (fun i => if i = 1 then Except.error (GoError.mk (gs "net"))
          else Except.ok (⟨[⟨some ⟨[⟨some [1]⟩]⟩⟩]⟩ : GenResp)) ⟨none, none⟩ 7
      = (.ok (gs "./data/uploads/infograph_" ++ natStr 7 ++ gs ".png"),
          attemptsFrom 1 2) := by
  refine ⟨by decide, by decide, by decide, ?_⟩
  exact ((c2_gemini_retry_policy (gs "key") (by decide)
      (fun i => if i = 1 then Except.error (GoError.mk (gs "net"))
        else Except.ok (⟨[⟨some ⟨[⟨some [1]⟩]⟩⟩]⟩ : GenResp)) ⟨none, none⟩ 7).2.2
    rfl).2.1 (by decide) (by decide)

/-- C5 counterexample: the default (Gemini) provider is called by the
transform handler with the requesting user's identity, but its
`GenerateImage` takes no user parameter and a successful call saves under
the shared uploads directory — not under the per-user directory of user
`u1` — so the per-user-scoped-save claim fails for the default provider. -/
theorem c5_gemini_not_user_scoped :
    (GeminiClient_GenerateImage (gs "key") none
        (fun _ => Except.ok (⟨[⟨some ⟨[⟨some [1]⟩]⟩⟩]⟩ : GenResp)) ⟨none, none⟩ 42).1
      = .ok (gs "./data/uploads/infograph_42.png") ∧
    (gs "./data/uploads/u1/").isPrefixOf (gs "./data/uploads/infograph_42.png")
      = false := by
  constructor <;> decide

/-- C5 (amended): the GLM and Z-Image providers save a successfully generated
image under the per-user directory `./data/uploads/<userID>` when a user
identity is supplied and under the shared `./data/uploads` otherwise, with a
timestamp-based `infograph_<UnixNano>.png` filename, returning the path; the
default Gemini provider always saves under the shared uploads directory with
the same filename scheme, regardless of the requesting user. -/
theorem c5_image_save_paths :
    (∀ (apiKey tok uid url : Str) (body : Bytes) (nowNano : Nat),
      apiKey ≠ [] → (goSplit (gs ".") apiKey).length = 2 → url ≠ [] →
      GLMImageClient_GenerateImage apiKey tok
          (.ok ⟨[⟨url⟩], ⟨[], [], [], []⟩⟩) (.ok ⟨200, body⟩) ⟨none, none⟩ nowNano uid
        = .ok ((if uid ≠ [] then gs "./data/uploads/" ++ uid else gs "./data/uploads")
            ++ gs "/" ++ gs "infograph_" ++ natStr nowNano ++ gs ".png")) ∧
    (∀ (apiKey uid url : Str) (body : Bytes) (nowNano : Nat),
      apiKey ≠ [] → url ≠ [] →
      ZImageClient_GenerateImage apiKey
          (.ok ⟨[⟨url⟩], [], []⟩) (.ok ⟨200, body⟩) ⟨none, none⟩ nowNano uid
        = .ok ((if uid ≠ [] then gs "./data/uploads/" ++ uid else gs "./data/uploads")
            ++ gs "/" ++ gs "infograph_" ++ natStr nowNano ++ gs ".png")) ∧
    (∀ (apiKey : Str) (call : Nat → Except GoError GenResp) (nowNano : Nat),
      apiKey ≠ [] → retriesOn (call 1) = false →
      (GeminiClient_GenerateImage apiKey none call ⟨none, none⟩ nowNano).1
        = .ok (gs "./data/uploads/infograph_" ++ natStr nowNano ++ gs ".png")) := by
  refine ⟨?_, ?_, ?_⟩
  · intro apiKey tok uid url body nowNano hk hsplit hurl
    simp [GLMImageClient_GenerateImage, GLMImageClient_generateToken, hk, hsplit, hurl]
  · intro apiKey uid url body nowNano hk hurl
    simp [ZImageClient_GenerateImage, hk, hurl]
  · intro apiKey call nowNano hk h1
    rw [gemini_entry apiKey hk call ⟨none, none⟩ nowNano]
    have e1 : geminiAttemptLoop call ⟨none, none⟩ nowNano 3 1 (GoError.mk [])
        = (.ok (gs "./data/uploads/infograph_" ++ natStr nowNano ++ gs ".png"),
            (if (1 : Nat) > 1 then [GenEv.sleepSecs 2] else [])
              ++ [GenEv.upstreamCall 1 300]) :=
      geminiLoop_success_step call nowNano 2 1 (GoError.mk []) h1
    rw [e1]

/-- C5 witness: a per-user GLM save, a shared-directory Z-Image save without
a user identity, and a shared-directory Gemini save, all on concrete
successful outcomes. -/
theorem c5_image_save_paths_witness :
    ((gs "id.sec") ≠ [] ∧ (goSplit (gs ".") (gs "id.sec")).length = 2 ∧
      (gs "http-x") ≠ []) ∧
    GLMImageClient_GenerateImage (gs "id.sec") (gs "tok")
        (.ok ⟨[⟨gs "http-x"⟩], ⟨[], [], [], []⟩⟩) (.ok ⟨200, [1]⟩) ⟨none, none⟩ 5 (gs "u1")
      = .ok ((if (gs "u1") ≠ [] then gs "./data/uploads/" ++ gs "u1"
            else gs "./data/uploads")
          ++ gs "/" ++ gs "infograph_" ++ natStr 5 ++ gs ".png") ∧
    ZImageClient_GenerateImage (gs "zkey")
        (.ok ⟨[⟨gs "http-x"⟩], [], []⟩) (.ok ⟨200, [1]⟩) ⟨none, none⟩ 5 []
      = .ok ((if ([] : Str) ≠ [] then gs "./data/uploads/" ++ []
            else gs "./data/uploads")
          ++ gs "/" ++ gs "infograph_" ++ natStr 5 ++ gs ".png") ∧
    (GeminiClient_GenerateImage (gs "key") none
        (fun _ => Except.ok (⟨[⟨some ⟨[⟨some [1]⟩]⟩⟩]⟩ : GenResp)) ⟨none, none⟩ 5).1
      = .ok (gs "./data/uploads/infograph_" ++ natStr 5 ++ gs ".png") := by
  refine ⟨⟨by decide, by decide, by decide⟩, ?_, ?_, ?_⟩
  · exact c5_image_save_paths.1 (gs "id.sec") (gs "tok") (gs "u1") (gs "http-x") [1] 5
      (by decide) (by decide) (by decide)
  · exact c5_image_save_paths.2.1 (gs "zkey") [] (gs "http-x") [1] 5
      (by decide) (by decide)
  · exact c5_image_save_paths.2.2 (gs "key")
      (fun _ => Except.ok ⟨[⟨some ⟨[⟨some [1]⟩]⟩⟩]⟩) 5 (by decide) (by decide)
